import Mathlib

/-
Verification of the process-supervision component of miraclecast-gui
(src/miraclecast-gui.py) against its natural-language specification.

The GUI supervises external processes through Qt's QProcess.  The shallow
embedding below models:
  * a QProcess handle as `Proc`: whether it is currently running, how many
    time units after a graceful `terminate()` request it would exit (`none`
    when it ignores the request), and its exit code.  `terminate()` followed
    by `waitForFinished(grace)` is modelled by `stopSequence`, and `kill()`
    by `killProc`.  Qt's `waitForFinished` returns `false` when the process
    is not running, which `stopSequence` reproduces.
  * the application object as `GuiState`: the `self.processes` registry
    (a role-name-to-process map with Python-dict semantics: `setEntry`
    replaces or appends, `removeEntry` models `pop`), the status labels,
    the console log (`(message, errorFlag)` pairs; the wall-clock timestamp
    prefix of `log()` is outside the model), the error dialogs raised by
    `show_error`, and the `subprocess.run` invocations (`sysCalls`).
  * the environment's contribution to a launch as `ProcSpec`: whether the
    new process reports started within `waitForStarted(5000)`, and how the
    resulting process behaves.
Time units are seconds: 3 for the stop grace period, 5 for the startup
timeout, 2 for the per-entry cleanup timeout, matching the 3000/5000/2000
millisecond constants of the source.
-/

namespace Miraclecast

/-- A QProcess handle: whether the underlying OS process is running, how many
time units after a graceful termination request it would take to exit
(`none` when it ignores the request), and the exit code it reports. -/
structure Proc where
  running : Bool
  gracefulExit : Option Nat
  exitCode : Int
deriving DecidableEq

/-- Whether the process, asked to terminate, exits within `grace` time units.
A process that is not running cannot "finish" again: Qt's `waitForFinished`
returns false for it. -/
def gracefulWithin (p : Proc) (grace : Nat) : Bool :=
  p.running &&
    (match p.gracefulExit with
     | some t => decide (t ≤ grace)
     | none => false)

/-- `process.terminate()` followed by `process.waitForFinished(grace)`:
the resulting handle and the boolean `waitForFinished` returns. -/
def stopSequence (p : Proc) (grace : Nat) : Proc × Bool :=
  if gracefulWithin p grace then ({ p with running := false }, true) else (p, false)

/-- `process.kill()`: forced, immediate termination. -/
def killProc (p : Proc) : Proc :=
  { p with running := false }

/-- `self.processes[k] = v` on a Python dict modelled as an association list:
replace the existing entry for `k` or append a new one. -/
def setEntry : List (String × Proc) → String → Proc → List (String × Proc)
  | [], k, v => [(k, v)]
  | (k0, v0) :: rest, k, v =>
      if k0 = k then (k, v) :: rest else (k0, v0) :: setEntry rest k v

/-- `self.processes.pop(k, None)`: drop the entry for `k`. -/
def removeEntry (l : List (String × Proc)) (k : String) : List (String × Proc) :=
  l.filter (fun e => e.1 != k)

/-- The mutable state of the `MiracleCastGUI` object that the supervision
code reads and writes: the process registry, the sink/source status labels,
the service status labels of the setup tab, the console log, the error
dialogs shown, and the system commands invoked through `subprocess.run`. -/
structure GuiState where
  processes : List (String × Proc)
  sinkStatus : String
  sourceStatus : String
  nmStatus : String
  wpaStatus : String
  log : List (String × Bool)
  errors : List String
  sysCalls : List (List String)
deriving DecidableEq

/-- `self.log(message, error)`: append a console line. -/
def logLine (s : GuiState) (msg : String) (err : Bool) : GuiState :=
  { s with log := s.log ++ [(msg, err)] }

/-- `self.show_error(message)`: raise a critical message dialog. -/
def showError (s : GuiState) (msg : String) : GuiState :=
  { s with errors := s.errors ++ [msg] }

/-- Python `str.strip()` whitespace. -/
def pyIsSpace (c : Char) : Bool :=
  c = ' ' || c = '\t' || c = '\n' || c = '\r'

/-- Python `str.strip()`: drop leading and trailing whitespace. -/
def pyStrip (s : String) : String :=
  String.mk (((s.toList.dropWhile pyIsSpace).reverse.dropWhile pyIsSpace).reverse)

/-- Python `str.isdigit()` for ASCII text: non-empty and all digits. -/
def pyIsDigit (s : String) : Bool :=
  s != "" && s.toList.all Char.isDigit

/-- Python `int(s)` on an all-digit string: decimal value. -/
def strToNat (s : String) : Nat :=
  s.toList.foldl (fun n c => n * 10 + (c.toNat - 48)) 0

/-- The path of the universal script (`self.universal_script`); the directory
prefix computed from `__file__` is outside the model. -/
def universalScript : String :=
  "miraclecast-universal.sh"

/-- The sink-tab option checkboxes read by `build_universal_cmd("sink")`. -/
structure SinkOpts where
  uibc : Bool
  greenScreen : Bool
  hwFixes : Bool
  session : Bool
deriving DecidableEq

/-- The source-tab option widgets read by `build_universal_cmd("source")`:
the free-text resolution, FPS and bitrate fields and the two checkboxes. -/
structure SourceOpts where
  width : String
  height : String
  fps : String
  bitrate : String
  hwFixes : Bool
  session : Bool
deriving DecidableEq

/-- `build_universal_cmd("sink")`: always returns a command. -/
def buildSinkCmd (iface : String) (o : SinkOpts) : List String :=
  let cmd := [universalScript, "-i", iface, "-m", "sink"]
  let cmd := if o.uibc then cmd ++ ["-u"] else cmd
  let cmd := if o.greenScreen then cmd ++ ["-g"] else cmd
  let cmd := if !o.hwFixes then cmd ++ ["-n"] else cmd
  if !o.session then cmd ++ ["-s"] else cmd

/-- The guard `width and height and width.isdigit() and height.isdigit()`
under which `build_universal_cmd("source")` considers the resolution pair. -/
def resConsidered (w h : String) : Bool :=
  w != "" && h != "" && pyIsDigit w && pyIsDigit h

/-- `320 <= width_val <= 3840 and 240 <= height_val <= 2160`. -/
def resInRange (w h : String) : Bool :=
  decide (320 ≤ strToNat w) && decide (strToNat w ≤ 3840) &&
    decide (240 ≤ strToNat h) && decide (strToNat h ≤ 2160)

/-- The guard `v and v.isdigit()` under which a single numeric field (FPS,
bitrate) is considered. -/
def fieldConsidered (v : String) : Bool :=
  v != "" && pyIsDigit v

/-- `10 <= fps_val <= 60`. -/
def fpsInRange (f : String) : Bool :=
  decide (10 ≤ strToNat f) && decide (strToNat f ≤ 60)

/-- `1000 <= bitrate_val <= 20000`. -/
def bitrateInRange (b : String) : Bool :=
  decide (1000 ≤ strToNat b) && decide (strToNat b ≤ 20000)

/-- The two trailing flags of `build_universal_cmd("source")`: `-n` when
hardware fixes are disabled and `-s` when session management is disabled. -/
def sourceTrailingOpts (cmd : List String) (hwFixes sessionMgmt : Bool) : List String :=
  let cmd := if !hwFixes then cmd ++ ["-n"] else cmd
  if !sessionMgmt then cmd ++ ["-s"] else cmd

/-- The bitrate section of `build_universal_cmd("source")` and everything
after it: the built command (`none` models Python `return None`) and the
error dialogs raised. -/
def bitrateStep (cmd : List String) (b : String) (hwFixes sessionMgmt : Bool) :
    Option (List String) × List String :=
  if fieldConsidered b then
    if bitrateInRange b then
      (some (sourceTrailingOpts (cmd ++ ["-b", b]) hwFixes sessionMgmt), [])
    else (none, ["Invalid bitrate. Must be between 1000-20000 kbps."])
  else (some (sourceTrailingOpts cmd hwFixes sessionMgmt), [])

/-- The FPS section of `build_universal_cmd("source")` and everything after. -/
def fpsStep (cmd : List String) (f b : String) (hwFixes sessionMgmt : Bool) :
    Option (List String) × List String :=
  if fieldConsidered f then
    if fpsInRange f then bitrateStep (cmd ++ ["-f", f]) b hwFixes sessionMgmt
    else (none, ["Invalid FPS. Must be between 10-60."])
  else bitrateStep cmd b hwFixes sessionMgmt

/-- `build_universal_cmd("source")`: the built command (`none` models
`return None`) and the error dialogs raised along the way.  The raw widget
texts are stripped exactly where the source strips them. -/
def buildSourceCmd (iface wRaw hRaw fRaw bRaw : String) (hwFixes sessionMgmt : Bool) :
    Option (List String) × List String :=
  let w := pyStrip wRaw
  let h := pyStrip hRaw
  let f := pyStrip fRaw
  let b := pyStrip bRaw
  let cmd := [universalScript, "-i", iface, "-m", "source"]
  if resConsidered w h then
    if resInRange w h then fpsStep (cmd ++ ["-r", w ++ "x" ++ h]) f b hwFixes sessionMgmt
    else (none, ["Invalid resolution. Width must be 320-3840, height 240-2160."])
  else fpsStep cmd f b hwFixes sessionMgmt

/-- What the environment contributes when `run_command` launches a new
QProcess: whether `waitForStarted(5000)` succeeds, and how the resulting
process behaves afterwards. -/
structure ProcSpec where
  startsInTime : Bool
  gracefulExit : Option Nat
  exitCode : Int
deriving DecidableEq

/-- The QProcess object created by `run_command` for a launch described by
`np`: running exactly when the launch succeeded in time. -/
def launchProc (np : ProcSpec) : Proc :=
  { running := np.startsInTime, gracefulExit := np.gracefulExit, exitCode := np.exitCode }

/-- The `if process_name in self.processes` block of `run_command`
(src/miraclecast-gui.py:541-547): terminate the registered process, wait up
to 3 time units, force-kill on timeout.  The registered handle is mutated in
place, so the registry sees the stopped process. -/
def stopExistingFor (s : GuiState) (name : String) : GuiState :=
  match s.processes.lookup name with
  | none => s
  | some p =>
      let r := stopSequence p 3
      if r.2 then { s with processes := setEntry s.processes name r.1 }
      else
        { s with
            processes := setEntry s.processes name (killProc r.1),
            log := s.log ++ [("Process didn't terminate gracefully, forcing kill", true)] }

/-- The launch half of `run_command` (src/miraclecast-gui.py:549-573): log
the command, create and register the new QProcess, start it, and on a
`waitForStarted(5000)` timeout log the failure, drop the registry entry and
set the role's status label to "Start Failed". -/
def launchPhase (s : GuiState) (c : List String) (name : String) (np : ProcSpec) : GuiState :=
  let s := logLine s ("Running: " ++ String.intercalate " " c) false
  let p := launchProc np
  let s := { s with processes := setEntry s.processes name p }
  if np.startsInTime then s
  else
    let s := logLine s ("Failed to start process: " ++ c.headD "") true
    let s := { s with processes := removeEntry s.processes name }
    if name = "sink" then { s with sinkStatus := "Start Failed" }
    else if name = "source" then { s with sourceStatus := "Start Failed" }
    else s

/-- `run_command(cmd, process_name)` (src/miraclecast-gui.py:534-576):
reject a `None` command, otherwise stop any registered process for the role
and then launch the new one. -/
def runCommand (s : GuiState) (cmd : Option (List String)) (name : String) (np : ProcSpec) :
    GuiState :=
  match cmd with
  | none => logLine s "Invalid command parameters, cannot execute" true
  | some c => launchPhase (stopExistingFor s name) c name np

/-- `stop_sink_service` (src/miraclecast-gui.py:497-507): when a sink
process is registered, terminate it, wait up to 3 time units, force-kill on
timeout, set the status label and log; otherwise do nothing. -/
def stopSinkService (s : GuiState) : GuiState :=
  match s.processes.lookup "sink" with
  | none => s
  | some p =>
      let r := stopSequence p 3
      let s :=
        if r.2 then { s with processes := setEntry s.processes "sink" r.1 }
        else
          { s with
              processes := setEntry s.processes "sink" (killProc r.1),
              log := s.log ++ [("Process didn't terminate gracefully, forcing...", true)] }
      logLine { s with sinkStatus := "Not Running" } "Stopped sink service" false

/-- `stop_source_service` (src/miraclecast-gui.py:522-532): the source-role
twin of `stopSinkService`. -/
def stopSourceService (s : GuiState) : GuiState :=
  match s.processes.lookup "source" with
  | none => s
  | some p =>
      let r := stopSequence p 3
      let s :=
        if r.2 then { s with processes := setEntry s.processes "source" r.1 }
        else
          { s with
              processes := setEntry s.processes "source" (killProc r.1),
              log := s.log ++ [("Process didn't terminate gracefully, forcing...", true)] }
      logLine { s with sourceStatus := "Not Running" } "Stopped source service" false

/-- `process_finished(process_name, exit_code, exit_status)`
(src/miraclecast-gui.py:578-591): on a non-zero exit code log the code and
set the role's status label to "Error", otherwise log success and set it to
"Not Running".  The registry is not touched. -/
def processFinished (s : GuiState) (name : String) (exitCode : Int) : GuiState :=
  if exitCode ≠ 0 then
    let s := logLine s ("Process '" ++ name ++ "' exited with code " ++ toString exitCode) true
    if name = "sink" then { s with sinkStatus := "Error" }
    else if name = "source" then { s with sourceStatus := "Error" }
    else s
  else
    let s := logLine s ("Process '" ++ name ++ "' completed successfully") false
    if name = "sink" then { s with sinkStatus := "Not Running" }
    else if name = "source" then { s with sourceStatus := "Not Running" }
    else s

/-- `start_sink_service` (src/miraclecast-gui.py:484-495): reject an empty
interface selection, otherwise build the sink command, run it, and
unconditionally set the status label to "Running" and log a start line. -/
def startSinkService (s : GuiState) (iface : String) (o : SinkOpts) (np : ProcSpec) : GuiState :=
  if iface = "" then showError s "Select network interface first"
  else
    let cmd := buildSinkCmd iface o
    let s := runCommand s (some cmd) "sink" np
    let s := { s with sinkStatus := "Running" }
    logLine s ("Started sink mode with universal script on " ++ iface) false

/-- `start_source_service` (src/miraclecast-gui.py:509-520): reject an empty
interface selection, otherwise build the source command (possibly `None`),
run it, and unconditionally set the status label to "Running" and log a
start line. -/
def startSourceService (s : GuiState) (iface : String) (o : SourceOpts) (np : ProcSpec) :
    GuiState :=
  if iface = "" then showError s "Select network interface first"
  else
    let r := buildSourceCmd iface o.width o.height o.fps o.bitrate o.hwFixes o.session
    let s := { s with errors := s.errors ++ r.2 }
    let s := runCommand s r.1 "source" np
    let s := { s with sourceStatus := "Running" }
    logLine s ("Started source mode with universal script on " ++ iface) false

/-- The per-process body of `cleanup_on_exit` (src/miraclecast-gui.py:38-44):
for a running process, terminate, wait up to 2 time units, force-kill on
timeout; a process that is already not running is left alone. -/
def cleanupProc (p : Proc) : Proc :=
  if p.running then
    let r := stopSequence p 2
    if r.2 then r.1 else killProc r.1
  else p

/-- `cleanup_on_exit` (src/miraclecast-gui.py:36-46), registered once with
`atexit` in `__init__`: walk every registry entry, log and stop the running
ones with a 2-time-unit grace period. -/
def cleanupOnExit (s : GuiState) : GuiState :=
  { s with
      processes := s.processes.map (fun e => (e.1, cleanupProc e.2)),
      log := s.log ++
        (s.processes.filter (fun e => e.2.running)).map
          (fun e => ("Cleaning up process: " ++ e.1, false)) }

/-- The service-name pattern `^[a-zA-Z0-9_.-]+$` of `manage_service`.
Line 605 of src/miraclecast-gui.py carries a duplicated fragment
(`...service_name):$', service_name):`) that makes the file a Python
SyntaxError; this definition follows the evident intended reading
`re.match(r'^[a-zA-Z0-9_.-]+$', service_name)` of that line. -/
def validServiceName (name : String) : Bool :=
  name != "" && name.toList.all (fun c => c.isAlphanum || c = '_' || c = '.' || c = '-')

/-- The `allowed_services` whitelist of `manage_service`. -/
def allowedServices : List String :=
  ["NetworkManager", "wpa_supplicant", "network-manager"]

/-- `check_services_status` (src/miraclecast-gui.py:393-401): query
`systemctl is-active` for the two services (the environment's answers are
the `nmActive`/`wpaActive` parameters) and set the two status labels. -/
def checkServicesStatus (s : GuiState) (nmActive wpaActive : Bool) : GuiState :=
  { s with
      sysCalls := s.sysCalls ++
        [["systemctl", "is-active", "NetworkManager"],
         ["systemctl", "is-active", "wpa_supplicant"]],
      nmStatus := if nmActive then "Running" else "Stopped",
      wpaStatus := if wpaActive then "Running" else "Stopped" }

/-- `manage_service(service_name, start)` (src/miraclecast-gui.py:602-632):
regex validation, then the whitelist check, then `sudo systemctl ACTION
SERVICE`; `rc` and `stderrText` are the environment's return code and
standard-error text for that invocation.  The validation line (605) is a
SyntaxError in the source file (a duplicated fragment); the model follows
its evident intended reading, see `validServiceName`. -/
def manageService (s : GuiState) (serviceName : String) (start : Bool)
    (rc : Int) (stderrText : String) (nmActive wpaActive : Bool) : GuiState :=
  if !validServiceName serviceName then
    let msg := "Invalid service name format: " ++ serviceName
    logLine (showError s msg) msg true
  else
    let action := if start then "start" else "stop"
    if !(allowedServices.contains serviceName) then
      let msg := "Service management not allowed for: " ++ serviceName
      logLine (showError s msg) msg true
    else
      let s := { s with sysCalls := s.sysCalls ++ [["sudo", "systemctl", action, serviceName]] }
      if rc = 0 then
        checkServicesStatus (logLine s (serviceName ++ " " ++ action ++ "ed successfully") false)
          nmActive wpaActive
      else
        let msg :=
          if pyStrip stderrText = "" then "Failed to " ++ action ++ " " ++ serviceName
          else pyStrip stderrText
        logLine (showError s msg) msg true

/-! Concrete sample inputs used by the witness and counterexample theorems. -/

/-- A live process that exits one time unit after a graceful request. -/
def procLive : Proc :=
  { running := true, gracefulExit := some 1, exitCode := 0 }

/-- A live process that ignores graceful termination requests. -/
def procStubborn : Proc :=
  { running := true, gracefulExit := none, exitCode := 0 }

/-- A process that has already exited on its own with code 2. -/
def procDead : Proc :=
  { running := false, gracefulExit := none, exitCode := 2 }

/-- The GUI state right after startup: empty registry, both labels
"Not Running", nothing logged. -/
def emptyState : GuiState :=
  { processes := [], sinkStatus := "Not Running", sourceStatus := "Not Running",
    nmStatus := "Unknown", wpaStatus := "Unknown", log := [], errors := [], sysCalls := [] }

/-- A state with a live sink process registered. -/
def stateWithSink : GuiState :=
  { emptyState with processes := [("sink", procLive)] }

/-- A state with a live source process registered. -/
def stateWithSource : GuiState :=
  { emptyState with processes := [("source", procLive)] }

/-- A state whose registered source process has already exited with code 2. -/
def stateWithDeadSource : GuiState :=
  { emptyState with processes := [("source", procDead)] }

/-- A launch that reports started in time and behaves like `procLive`. -/
def specOk : ProcSpec :=
  { startsInTime := true, gracefulExit := some 1, exitCode := 0 }

/-- A launch that does not report started within the startup timeout. -/
def specFail : ProcSpec :=
  { startsInTime := false, gracefulExit := none, exitCode := 0 }

/-- The sink-tab checkboxes in their initial configuration. -/
def defaultSinkOpts : SinkOpts :=
  { uibc := false, greenScreen := false, hwFixes := true, session := true }

/-! Helper lemmas about the registry. -/

/-- Writing an entry makes it the one `lookup` finds. -/
theorem lookup_setEntry (l : List (String × Proc)) (k : String) (v : Proc) :
    (setEntry l k v).lookup k = some v := by
  induction l with
  | nil => simp [setEntry, List.lookup]
  | cons e rest ih =>
      obtain ⟨k0, v0⟩ := e
      by_cases h : k0 = k
      · simp [setEntry, h, List.lookup]
      · have h2 : (k == k0) = false := by
          simp only [beq_eq_false_iff_ne, ne_eq]
          exact fun hh => h hh.symm
        simpa [setEntry, h, List.lookup, h2] using ih

/-- The stop block of `run_command` leaves the role's registered process not
running, whichever of the graceful and the forced path was taken. -/
theorem stopExistingFor_lookup (s : GuiState) (name : String) (p : Proc)
    (h : s.processes.lookup name = some p) :
    ∃ q : Proc, (stopExistingFor s name).processes.lookup name = some q ∧ q.running = false := by
  unfold stopExistingFor
  rw [h]
  by_cases hg : gracefulWithin p 3
  · simp only [stopSequence, hg, if_true]
    exact ⟨_, lookup_setEntry _ _ _, rfl⟩
  · simp only [stopSequence, hg, if_false, Bool.false_eq_true]
    exact ⟨_, lookup_setEntry _ _ _, rfl⟩

/-! The claims. -/

/-- C1: a `start` issued for a role that already has a registered process
fully stops that process (graceful request, bounded wait, forced kill if
needed) before the new process is launched and installed: `run_command`
factors through `stopExistingFor`, after which the role's registered
process is not running, and only then does `launchPhase` install the new
process for the role. -/
theorem C1_prior_process_stopped_before_launch (s : GuiState) (name : String)
    (c : List String) (np : ProcSpec) (p : Proc)
    (h : s.processes.lookup name = some p) :
    (∃ q : Proc, (stopExistingFor s name).processes.lookup name = some q ∧ q.running = false) ∧
    runCommand s (some c) name np = launchPhase (stopExistingFor s name) c name np ∧
    (np.startsInTime = true →
      (runCommand s (some c) name np).processes.lookup name = some (launchProc np)) := by
  refine ⟨stopExistingFor_lookup s name p h, rfl, fun hst => ?_⟩
  simp only [runCommand, launchPhase, hst, if_true, logLine]
  exact lookup_setEntry _ _ _

/-- Witness for C1 at a state with a live sink process. -/
theorem C1_prior_process_stopped_before_launch_witness :
    stateWithSink.processes.lookup "sink" = some procLive ∧
    ((∃ q : Proc, (stopExistingFor stateWithSink "sink").processes.lookup "sink" = some q ∧
        q.running = false) ∧
      runCommand stateWithSink (some ["echo"]) "sink" specOk =
        launchPhase (stopExistingFor stateWithSink "sink") ["echo"] "sink" specOk ∧
      (specOk.startsInTime = true →
        (runCommand stateWithSink (some ["echo"]) "sink" specOk).processes.lookup "sink" =
          some (launchProc specOk))) :=
  ⟨by decide,
    C1_prior_process_stopped_before_launch stateWithSink "sink" ["echo"] specOk procLive
      (by decide)⟩

/-- C7: `stop` on a role with no registered process is a no-op: the whole
state, registry, status labels and log included, is returned unchanged. -/
theorem C7_stop_unregistered_role_noop (s t : GuiState)
    (hs : s.processes.lookup "sink" = none)
    (ht : t.processes.lookup "source" = none) :
    stopSinkService s = s ∧ stopSourceService t = t := by
  constructor
  · unfold stopSinkService
    rw [hs]
  · unfold stopSourceService
    rw [ht]

/-- Witness for C7 at the startup state. -/
theorem C7_stop_unregistered_role_noop_witness :
    emptyState.processes.lookup "sink" = none ∧
    emptyState.processes.lookup "source" = none ∧
    (stopSinkService emptyState = emptyState ∧ stopSourceService emptyState = emptyState) :=
  ⟨by decide, by decide,
    C7_stop_unregistered_role_noop emptyState emptyState (by decide) (by decide)⟩

/-- C9: a start request with an empty interface selection only raises the
"Select network interface first" dialog: no command is built or run, and
the registry, the role's status label and the log are unchanged. -/
theorem C9_empty_interface_start_rejected (s : GuiState) (o1 : SinkOpts) (o2 : SourceOpts)
    (np : ProcSpec) :
    startSinkService s "" o1 np = showError s "Select network interface first" ∧
    startSourceService s "" o2 np = showError s "Select network interface first" ∧
    (startSinkService s "" o1 np).processes = s.processes ∧
    (startSinkService s "" o1 np).sinkStatus = s.sinkStatus ∧
    (startSinkService s "" o1 np).log = s.log ∧
    (startSourceService s "" o2 np).processes = s.processes ∧
    (startSourceService s "" o2 np).sourceStatus = s.sourceStatus ∧
    (startSourceService s "" o2 np).log = s.log :=
  ⟨rfl, rfl, rfl, rfl, rfl, rfl, rfl, rfl⟩

/-- C2 counterexample: stopping a registered, gracefully-exiting sink
process leaves the registry entry for "sink" in place (the claim asserts
the entry is removed; `stop_sink_service` never pops `self.processes`). -/
theorem C2_registry_entry_remains_cex :
    (stopSinkService stateWithSink).processes.lookup "sink" =
      some { running := false, gracefulExit := some 1, exitCode := 0 } := by
  decide

/-- C2 amended: `stop` on a role with a registered process terminates it
gracefully when it exits within the 3-time-unit grace period and force-kills
it otherwise (the forced path alone logs the escalation), and reports the
status "Not Running"; the registry entry, however, is updated in place and
not removed. -/
theorem C2_stop_graceful_then_forced (s t : GuiState) (p q : Proc)
    (hs : s.processes.lookup "sink" = some p)
    (ht : t.processes.lookup "source" = some q) :
    ((stopSinkService s).sinkStatus = "Not Running" ∧
      (∃ p2 : Proc, (stopSinkService s).processes.lookup "sink" = some p2 ∧
        p2.running = false) ∧
      (gracefulWithin p 3 = true →
        (stopSinkService s).log = s.log ++ [("Stopped sink service", false)]) ∧
      (gracefulWithin p 3 = false →
        (stopSinkService s).log = s.log ++
          [("Process didn't terminate gracefully, forcing...", true),
           ("Stopped sink service", false)])) ∧
    ((stopSourceService t).sourceStatus = "Not Running" ∧
      (∃ q2 : Proc, (stopSourceService t).processes.lookup "source" = some q2 ∧
        q2.running = false) ∧
      (gracefulWithin q 3 = true →
        (stopSourceService t).log = t.log ++ [("Stopped source service", false)]) ∧
      (gracefulWithin q 3 = false →
        (stopSourceService t).log = t.log ++
          [("Process didn't terminate gracefully, forcing...", true),
           ("Stopped source service", false)])) := by
  constructor
  · unfold stopSinkService
    rw [hs]
    by_cases hg : gracefulWithin p 3 = true <;>
      simp [stopSequence, hg, logLine, killProc, lookup_setEntry]
  · unfold stopSourceService
    rw [ht]
    by_cases hg : gracefulWithin q 3 = true <;>
      simp [stopSequence, hg, logLine, killProc, lookup_setEntry]

/-- Witness for C2 at a graceful sink process and a graceful source process. -/
theorem C2_stop_graceful_then_forced_witness :
    stateWithSink.processes.lookup "sink" = some procLive ∧
    stateWithSource.processes.lookup "source" = some procLive ∧
    (((stopSinkService stateWithSink).sinkStatus = "Not Running" ∧
      (∃ p2 : Proc, (stopSinkService stateWithSink).processes.lookup "sink" = some p2 ∧
        p2.running = false) ∧
      (gracefulWithin procLive 3 = true →
        (stopSinkService stateWithSink).log =
          stateWithSink.log ++ [("Stopped sink service", false)]) ∧
      (gracefulWithin procLive 3 = false →
        (stopSinkService stateWithSink).log = stateWithSink.log ++
          [("Process didn't terminate gracefully, forcing...", true),
           ("Stopped sink service", false)])) ∧
    ((stopSourceService stateWithSource).sourceStatus = "Not Running" ∧
      (∃ q2 : Proc, (stopSourceService stateWithSource).processes.lookup "source" = some q2 ∧
        q2.running = false) ∧
      (gracefulWithin procLive 3 = true →
        (stopSourceService stateWithSource).log =
          stateWithSource.log ++ [("Stopped source service", false)]) ∧
      (gracefulWithin procLive 3 = false →
        (stopSourceService stateWithSource).log = stateWithSource.log ++
          [("Process didn't terminate gracefully, forcing...", true),
           ("Stopped source service", false)]))) :=
  ⟨by decide, by decide,
    C2_stop_graceful_then_forced stateWithSink stateWithSource procLive procLive
      (by decide) (by decide)⟩

/-- C4 counterexample: after the exit handler observes the source process
exiting with code 2, the status is "Error" but the registry still holds the
entry for "source" untouched (the claim asserts the entry is removed;
`process_finished` never pops `self.processes`). -/
theorem C4_registry_entry_not_removed_cex :
    (processFinished stateWithDeadSource "source" 2).sourceStatus = "Error" ∧
    (processFinished stateWithDeadSource "source" 2).processes = [("source", procDead)] := by
  decide

/-- C4 amended: when a process exits on its own, the exit handler sets the
role's status to "Not Running" for exit code 0 and to "Error" otherwise,
records a non-zero exit code in the log, and leaves the registry unchanged
(it does not remove the role's entry). -/
theorem C4_exit_updates_status_keeps_entry (s : GuiState) (code : Int) :
    (processFinished s "sink" code).sinkStatus = (if code = 0 then "Not Running" else "Error") ∧
    (processFinished s "source" code).sourceStatus =
      (if code = 0 then "Not Running" else "Error") ∧
    (processFinished s "sink" code).processes = s.processes ∧
    (processFinished s "source" code).processes = s.processes ∧
    (code ≠ 0 → (processFinished s "sink" code).log =
      s.log ++ [("Process 'sink' exited with code " ++ toString code, true)]) ∧
    (code ≠ 0 → (processFinished s "source" code).log =
      s.log ++ [("Process 'source' exited with code " ++ toString code, true)]) := by
  by_cases hc : code = 0 <;> simp [processFinished, hc, logLine]

/-- C5: `cleanup_on_exit` walks every registry entry with the
graceful-then-forced stop bounded to 2 time units per entry, so that no
registered process is still running afterwards. -/
theorem C5_no_process_survives_cleanup (s : GuiState) (n : String) (p : Proc)
    (h : (n, p) ∈ (cleanupOnExit s).processes) :
    p.running = false ∧
    (cleanupOnExit s).processes = s.processes.map (fun e => (e.1, cleanupProc e.2)) := by
  refine ⟨?_, rfl⟩
  unfold cleanupOnExit at h
  simp only [List.mem_map] at h
  obtain ⟨e, -, he⟩ := h
  have hp : p = cleanupProc e.2 := (Prod.mk.injEq _ _ _ _ ▸ he).2.symm
  subst hp
  unfold cleanupProc
  by_cases hr : e.2.running = true <;>
    by_cases hg : gracefulWithin e.2 2 = true <;>
      simp [stopSequence, hr, hg, killProc]

/-- Witness for C5: the cleaned-up sink process of `stateWithSink`. -/
theorem C5_no_process_survives_cleanup_witness :
    (("sink", Proc.mk false (some 1) 0) ∈ (cleanupOnExit stateWithSink).processes) ∧
    ((Proc.mk false (some 1) 0).running = false ∧
      (cleanupOnExit stateWithSink).processes =
        stateWithSink.processes.map (fun e => (e.1, cleanupProc e.2))) :=
  ⟨by decide,
    C5_no_process_survives_cleanup stateWithSink "sink" (Proc.mk false (some 1) 0) (by decide)⟩

/-- C3: the start path evaluated at a launch that misses the 5-time-unit
startup timeout.  `run_command` itself removes the role from the registry
and sets the label to "Start Failed", but `start_sink_service` then
unconditionally overwrites the label with "Running" (and logs a start
line), so the status the caller ends up seeing is "Running". -/
theorem C3_failed_start_status_overwritten :
    (runCommand emptyState (some (buildSinkCmd "wlan0" defaultSinkOpts)) "sink"
        specFail).sinkStatus = "Start Failed" ∧
    (startSinkService emptyState "wlan0" defaultSinkOpts specFail).sinkStatus = "Running" ∧
    (startSinkService emptyState "wlan0" defaultSinkOpts specFail).processes.lookup "sink" =
      none := by
  decide

/-- Source options whose all-digit width 9999 lies outside 320-3840. -/
def srcOptsBadRes : SourceOpts :=
  { width := "9999", height := "720", fps := "30", bitrate := "8192",
    hwFixes := true, session := true }

/-- C6: on the model, a `None` command (from an invalid numeric option) is
rejected by `run_command` before the registry or any process is touched,
end to end through `start_source_service`; and, under the intended reading
of the syntactically broken validation at line 605, `manage_service`
rejects an unsafe name with a validation error before any system command
is invoked. -/
theorem C6_malformed_input_rejected_eval :
    (runCommand stateWithSink none "sink" specOk).processes = stateWithSink.processes ∧
    (runCommand stateWithSink none "sink" specOk).sysCalls = stateWithSink.sysCalls ∧
    (runCommand stateWithSink none "sink" specOk).log =
      stateWithSink.log ++ [("Invalid command parameters, cannot execute", true)] ∧
    (buildSourceCmd "wlan0" "9999" "720" "30" "8192" true true).1 = none ∧
    (startSourceService emptyState "wlan0" srcOptsBadRes specOk).processes = [] ∧
    (startSourceService emptyState "wlan0" srcOptsBadRes specOk).sysCalls = [] ∧
    (manageService emptyState "bad;name" true 0 "" true true).sysCalls = [] ∧
    (manageService emptyState "bad;name" true 0 "" true true).errors =
      ["Invalid service name format: bad;name"] := by
  decide

/-- C10: on the intended reading of `manage_service` (its validation line
605 is a SyntaxError in the source), a name failing the
letters-digits-underscore-dot-hyphen pattern and a well-formed name outside
the whitelist are both rejected with a validation error, for the start and
the stop action alike, without any system command being invoked; a
whitelisted name does reach `sudo systemctl`. -/
theorem C10_service_name_validation_eval :
    (manageService emptyState "sshd" true 0 "" true true).sysCalls = [] ∧
    (manageService emptyState "sshd" false 0 "" true true).sysCalls = [] ∧
    (manageService emptyState "sshd" true 0 "" true true).errors =
      ["Service management not allowed for: sshd"] ∧
    (manageService emptyState "rm -rf /" true 0 "" true true).sysCalls = [] ∧
    (manageService emptyState "rm -rf /" false 0 "" true true).sysCalls = [] ∧
    (manageService emptyState "rm -rf /" true 0 "" true true).errors =
      ["Invalid service name format: rm -rf /"] ∧
    (manageService emptyState "NetworkManager" true 0 "" true true).sysCalls =
      [["sudo", "systemctl", "start", "NetworkManager"],
       ["systemctl", "is-active", "NetworkManager"],
       ["systemctl", "is-active", "wpa_supplicant"]] := by
  decide

/-- C8 counterexample: the width "100" is all-digit and lies outside
320-3840, yet with an empty height the resolution guard fails, so the
option is silently omitted and the build succeeds (the claim as stated
requires the build to return None for any all-digit out-of-range value). -/
theorem C8_out_of_range_width_not_rejected_cex :
    pyIsDigit "100" = true ∧ ¬(320 ≤ strToNat "100") ∧
    (buildSourceCmd "wlan0" "100" "" "30" "8192" true true).1 =
      some [universalScript, "-i", "wlan0", "-m", "source", "-f", "30", "-b", "8192"] := by
  decide

/-- The condition under which `build_universal_cmd("source")` returns None:
some option group is considered (its guard holds: both resolution fields, or
the single FPS or bitrate field, non-empty and all-digit) and the considered
value lies outside the allowed range. -/
def sourceCmdRejected (w h f b : String) : Bool :=
  (resConsidered w h && !resInRange w h) || (fieldConsidered f && !fpsInRange f) ||
    (fieldConsidered b && !bitrateInRange b)

/-- `sourceTrailingOpts` in closed form. -/
theorem sourceTrailingOpts_eq (cmd : List String) (hw sess : Bool) :
    sourceTrailingOpts cmd hw sess =
      cmd ++ (if hw then [] else ["-n"]) ++ (if sess then [] else ["-s"]) := by
  unfold sourceTrailingOpts
  cases hw <;> cases sess <;> simp

/-- The bitrate section of the build in closed form. -/
theorem bitrateStep_fst (cmd : List String) (b : String) (hw sess : Bool) :
    (bitrateStep cmd b hw sess).1 =
      if fieldConsidered b && !bitrateInRange b then none
      else some (cmd ++ (if fieldConsidered b then ["-b", b] else []) ++
        (if hw then [] else ["-n"]) ++ (if sess then [] else ["-s"])) := by
  unfold bitrateStep
  cases h1 : fieldConsidered b <;> cases h2 : bitrateInRange b <;>
    simp [h1, h2, sourceTrailingOpts_eq, List.append_assoc]

/-- The FPS section of the build and everything after it in closed form. -/
theorem fpsStep_fst (cmd : List String) (f b : String) (hw sess : Bool) :
    (fpsStep cmd f b hw sess).1 =
      if (fieldConsidered f && !fpsInRange f) || (fieldConsidered b && !bitrateInRange b)
      then none
      else some (cmd ++ (if fieldConsidered f then ["-f", f] else []) ++
        (if fieldConsidered b then ["-b", b] else []) ++
        (if hw then [] else ["-n"]) ++ (if sess then [] else ["-s"])) := by
  unfold fpsStep
  cases h1 : fieldConsidered f <;> cases h2 : fpsInRange f <;>
    simp [h1, h2, bitrateStep_fst, List.append_assoc]

/-- C8 amended: an option is appended exactly when its guard holds (for the
resolution both fields non-empty and all-digit, for FPS and bitrate the
single field non-empty and all-digit) and its value is in range; the build
returns None exactly when some considered option is out of range; a field
that is empty or not all-digit silently omits its option and the build
proceeds. -/
theorem C8_source_options_validated (iface wR hR fR bR : String) (hw sess : Bool) :
    (buildSourceCmd iface wR hR fR bR hw sess).1 =
      (if sourceCmdRejected (pyStrip wR) (pyStrip hR) (pyStrip fR) (pyStrip bR) then none
       else some
        ([universalScript, "-i", iface, "-m", "source"] ++
          (if resConsidered (pyStrip wR) (pyStrip hR) then
            ["-r", pyStrip wR ++ "x" ++ pyStrip hR]
           else []) ++
          (if fieldConsidered (pyStrip fR) then ["-f", pyStrip fR] else []) ++
          (if fieldConsidered (pyStrip bR) then ["-b", pyStrip bR] else []) ++
          (if hw then [] else ["-n"]) ++
          (if sess then [] else ["-s"]))) := by
  unfold buildSourceCmd sourceCmdRejected
  cases h1 : resConsidered (pyStrip wR) (pyStrip hR) <;>
    cases h2 : resInRange (pyStrip wR) (pyStrip hR) <;>
      simp [h1, h2, fpsStep_fst, List.append_assoc]

end Miraclecast
